import Mathlib

/-!
Verification of the porepy composite subsystem (Peng-Robinson equation of
state, unified flash, saturation recovery).

The development shallowly embeds the relevant parts of
`src/porepy/composite/peng_robinson/eos.py`,
`src/porepy/composite/composition.py` and their helpers:

* per-cell semantics of the vectorised numpy code (all per-cell computations
  in the source are data-parallel across grid cells, so scalar per-cell
  functions are a faithful reduction);
* real-valued quantities (pressure, temperature, roots) are modelled over `ℝ`,
  exactly rational quantities that we want to evaluate on concrete inputs
  (residual norms, saturations) over `ℚ`;
* external primitives (the sparse linear solve, the AD assembly) are
  parameters of the embedding, as they are external collaborators of the core.

Code of the repository that is imported by the sources but not itself among
them (the `VanDerWaals` mixing rule, `VARIABLE_SYMBOLS`, `AbstractEoS`
helpers, the `_core` scale constants) is either taken as a parameter or
modelled from the specification; each such place is marked in its doc string.
-/

open scoped Classical

namespace PorepyVerify

/-! ### Peng-Robinson EoS: constants and cubic-root machinery (eos.py) -/

/-- Real cube root, as computed by `np.cbrt` (negative arguments give the
negative real root): `pp.ad.cbrt` delegates to numpy. -/
noncomputable def cbrt (x : ℝ) : ℝ :=
  if x < 0 then -((-x) ^ ((1 : ℝ) / 3)) else x ^ ((1 : ℝ) / 3)

/-- Critical non-dimensional cohesion `A_CRIT` of `PengRobinsonEoS`
(eos.py lines 214-222). -/
noncomputable def A_CRIT : ℝ :=
  1 / 512 *
    (-59 + 3 * cbrt (276231 - 192512 * Real.sqrt 2)
      + 3 * cbrt (276231 + 192512 * Real.sqrt 2))

/-- Critical non-dimensional covolume `B_CRIT` of `PengRobinsonEoS`
(eos.py lines 226-230). -/
noncomputable def B_CRIT : ℝ :=
  1 / 32 *
    (-1 - 3 * cbrt (16 * Real.sqrt 2 - 13) + 3 * cbrt (16 * Real.sqrt 2 + 13))

/-- Critical compressibility factor `Z_CRIT` of `PengRobinsonEoS`
(eos.py lines 233-235). -/
noncomputable def Z_CRIT : ℝ :=
  1 / 32 *
    (11 + cbrt (16 * Real.sqrt 2 - 13) - cbrt (16 * Real.sqrt 2 + 13))

/-- Abbreviation for the cube-root difference underlying `B_CRIT` and
`Z_CRIT`; it satisfies `dCrit ^ 3 + 21 * dCrit - 26 = 0`. -/
noncomputable def dCrit : ℝ :=
  cbrt (16 * Real.sqrt 2 + 13) - cbrt (16 * Real.sqrt 2 - 13)

/-- Abbreviation for the cube-root sum underlying `A_CRIT`; it satisfies
`eCrit ^ 3 - 3891 * eCrit - 552462 = 0`. -/
noncomputable def eCrit : ℝ :=
  cbrt (276231 - 192512 * Real.sqrt 2) + cbrt (276231 + 192512 * Real.sqrt 2)

/-- Default numerical-zero tolerance `eps` of `PengRobinsonEoS.__init__`
(eos.py line 244, `eps: float = 1e-14`). -/
noncomputable def epsD : ℝ := 1 / 10 ^ 14

/-- Coefficient `c0` of the compressibility polynomial in `_Z`
(eos.py line 960): `B^3 + B^2 - A*B`. -/
noncomputable def c0 (A B : ℝ) : ℝ := B ^ 3 + B ^ 2 - A * B

/-- Coefficient `c1` of the compressibility polynomial in `_Z`
(eos.py line 961): `A - 2*B - 3*B^2`. -/
noncomputable def c1 (A B : ℝ) : ℝ := A - 2 * B - 3 * B ^ 2

/-- Coefficient `c2` of the compressibility polynomial in `_Z`
(eos.py line 962): `B - 1`. -/
noncomputable def c2 (A B : ℝ) : ℝ := B - 1

/-- Reduced-polynomial coefficient `r` in `_Z` (eos.py line 965). -/
noncomputable def rC (A B : ℝ) : ℝ := c1 A B - (c2 A B) ^ 2 / 3

/-- Reduced-polynomial coefficient `q` in `_Z` (eos.py line 966). -/
noncomputable def qC (A B : ℝ) : ℝ :=
  2 / 27 * (c2 A B) ^ 3 - c2 A B * c1 A B / 3 + c0 A B

/-- Discriminant `delta` in `_Z` (eos.py line 969). -/
noncomputable def deltaC (A B : ℝ) : ℝ := (qC A B) ^ 2 / 4 + (rC A B) ^ 3 / 27

/-- One-real-root region of `_Z` (eos.py line 1019): `delta > eps`. -/
def oneRootRegion (e A B : ℝ) : Prop := e < deltaC A B

/-- Three-real-roots region of `_Z` (eos.py line 1020): `delta < -eps`. -/
def threeRootRegion (e A B : ℝ) : Prop := deltaC A B < -e

/-- Degenerate region of `_Z` (eos.py line 1010): `-eps ≤ delta ≤ eps`. -/
def degenerateRegion (e A B : ℝ) : Prop := -e ≤ deltaC A B ∧ deltaC A B ≤ e

/-- Double-root region of `_Z` (eos.py lines 1012-1014). -/
def doubleRootRegion (e A B : ℝ) : Prop :=
  degenerateRegion e A B ∧ (rC A B < -e ∨ e < rC A B)

/-- Triple-root region of `_Z` (eos.py lines 1015-1017). -/
def tripleRootRegion (e A B : ℝ) : Prop :=
  degenerateRegion e A B ∧ (-e ≤ rC A B ∧ rC A B ≤ e)

/-- The special point `A = B = 0` of `_Z` (eos.py lines 991-994). -/
def zeroPoint (e A B : ℝ) : Prop :=
  (-e ≤ A ∧ A ≤ e) ∧ (-e ≤ B ∧ B ≤ e)

/-- The exact critical point, with tolerance (eos.py lines 996-999). -/
def criticalPoint (e A B : ℝ) : Prop :=
  (A_CRIT - e ≤ A ∧ A ≤ A_CRIT + e) ∧ (B_CRIT - e ≤ B ∧ B ≤ B_CRIT + e)

/-- Rectangle with corners `0` and `(A_CRIT, B_CRIT)` (eos.py lines 1002-1005). -/
def acbcRect (e A B : ℝ) : Prop :=
  (e < A ∧ A < A_CRIT - e) ∧ (e < B ∧ B < B_CRIT - e)

/-- Super-critical line test of `_Z` (eos.py line 985). -/
def isSupercritical (A B : ℝ) : Prop := B_CRIT / A_CRIT * A ≤ B

/-- Sub-critical triangle of `_Z` (eos.py line 1007). -/
def subcTriang (e A B : ℝ) : Prop := ¬isSupercritical A B ∧ acbcRect e A B

/-- Approximated sub-pseudo-critical line of `_Z` (eos.py line 988); the
float literals of the source are embedded as exact rationals. -/
def isSubPseudoCritical (A B : ℝ) : Prop :=
  B ≤ B_CRIT + 7 / 10 * (3381965009398633 / 10 ^ 16) * (A - A_CRIT)

/-- Smoothing weight for the gas root, `_gas_smoother` (eos.py lines 71-99),
written per cell: the masked writes become a first-match conditional. -/
noncomputable def gasSmoother (proximity s : ℝ) : ℝ :=
  if 1 - s ≤ proximity then 1
  else if 1 - 2 * s < proximity ∧ proximity < 1 - s then
    ((proximity - (1 - 2 * s)) / s) ^ 2 * (3 - 2 * ((proximity - (1 - 2 * s)) / s))
  else 0

/-- Smoothing weight for the liquid root, `_liquid_smoother`
(eos.py lines 102-130), per cell. -/
noncomputable def liquidSmoother (proximity s : ℝ) : ℝ :=
  if proximity ≤ s then 1
  else if s < proximity ∧ proximity < 2 * s then
    -(((proximity - s) / s) ^ 2 * (3 - 2 * ((proximity - s) / s))) + 1
  else 0

/-- Per-cell `root_smoother` (eos.py lines 27-68): blends the liquid and gas
roots with the intermediate root near the region boundary. -/
noncomputable def rootSmoother (zL zI zG s : ℝ) : ℝ × ℝ :=
  let proximity := (zI - zL) / (zG - zL)
  let wG := (zI + zG) / 2
  let wL := (zI + zL) / 2
  let vG := gasSmoother proximity s
  let vL := liquidSmoother proximity s
  (zL * (1 - vL) + wL * vL, zG * (1 - vG) + wG * vG)

/-- Per-cell one-root-region computation of `_Z` (eos.py lines 1044-1098):
Cardano real root plus the extension value `w`; where the cell is
sub-pseudo-critical the extension is treated as the larger (gas-like) root.
Returns `(Z_L, Z_G)`. -/
noncomputable def oneRootZ (A B : ℝ) : ℝ × ℝ :=
  let t1 := -(qC A B) / 2 + Real.sqrt (deltaC A B)
  let t := if t1 < 0 then -t1 else t1
  let u0 := cbrt t
  let u := if t1 < 0 then -u0 else u0
  let z1 := (u - rC A B / (u * 3)) - c2 A B / 3
  let w := (1 - B - z1) / 2 + B + B_CRIT
  if isSubPseudoCritical A B then (z1, w) else (w, z1)

/-- Per-cell three-root-region computation of `_Z` (eos.py lines 1100-1132):
trigonometric roots, optionally smoothed on the sub-critical triangle.
Returns `(Z_L, Z_G)` (the intermediate root is dropped by the source). -/
noncomputable def threeRootZ (e s : ℝ) (applySmoother : Bool) (A B : ℝ) : ℝ × ℝ :=
  let r := rC A B
  let t2 := Real.arccos (-(qC A B) / 2 * Real.sqrt (-27 * (r ^ 3)⁻¹)) / 3
  let t1 := Real.sqrt (-4 / 3 * r)
  let z3 := t1 * Real.cos t2 - c2 A B / 3
  let z2 := -t1 * Real.cos (t2 + Real.pi / 3) - c2 A B / 3
  let z1 := -t1 * Real.cos (t2 - Real.pi / 3) - c2 A B / 3
  if applySmoother ∧ subcTriang e A B then
    let p := rootSmoother z1 z2 z3 s
    (p.1, p.2)
  else (z1, z3)

/-- Per-cell triple-root value of `_Z` (eos.py line 1145): `z = -c2/3`. -/
noncomputable def tripleRootZ (A B : ℝ) : ℝ := -(c2 A B) / 3

/-- Per-cell double-root-region computation of `_Z` (eos.py lines 1154-1183);
the bigger of the two distinct roots is gas-like. Returns `(Z_L, Z_G)`. -/
noncomputable def doubleRootZ (A B : ℝ) : ℝ × ℝ :=
  let u := 3 / 2 * qC A B / rC A B
  let z1 := 2 * u - c2 A B / 3
  let z23 := -u - c2 A B / 3
  if z1 < z23 then (z1, z23) else (z23, z1)

/-- Final correction step of `_Z` (eos.py lines 1185-1188): a liquid root at
or below `B` is nudged to `B + eps`; the gas root is returned untouched. -/
noncomputable def correctPair (e B : ℝ) (p : ℝ × ℝ) : ℝ × ℝ :=
  (if p.1 ≤ B then B + e else p.1, p.2)

/-- Per-cell `(Z_L, Z_G)` of `_Z` (eos.py lines 914-1197).  The source writes
the one-root, three-root, triple/critical and double/zero values into the
output arrays in that order, so a later region write overwrites an earlier
one; here this is encoded as a first-match conditional over the reversed
order.  The final step corrects the liquid root. -/
noncomputable def Z_LG (e s : ℝ) (applySmoother : Bool) (A B : ℝ) : ℝ × ℝ :=
  correctPair e B
    (if doubleRootRegion e A B ∨ zeroPoint e A B then doubleRootZ A B
     else if tripleRootRegion e A B ∨ criticalPoint e A B then
       (tripleRootZ A B, tripleRootZ A B)
     else if threeRootRegion e A B then threeRootZ e s applySmoother A B
     else if oneRootRegion e A B then oneRootZ A B
     else (0, 0))

/-- Per-cell result of `_Z` (eos.py lines 1205-1208): the gas-like phase
takes `(Z_G, Z_L)`, the liquid-like phase `(Z_L, Z_G)`. -/
noncomputable def Z_scalar (e s : ℝ) (gaslike applySmoother : Bool) (A B : ℝ) : ℝ × ℝ :=
  if gaslike then
    ((Z_LG e s applySmoother A B).2, (Z_LG e s applySmoother A B).1)
  else Z_LG e s applySmoother A B

/-! ### Thermodynamic property formulas of `PengRobinsonEoS` -/

/-- Universal molar gas constant `R_IDEAL`
(`_composite_utils.py` line 17), as an exact rational. -/
noncomputable def R_IDEAL : ℝ := 831446261815324 / 10 ^ 17

/-- Non-dimensional cohesion `_A` (eos.py lines 782-788, scalar branch). -/
noncomputable def ndA (a p T : ℝ) : ℝ := a * p / (R_IDEAL ^ 2 * T ^ 2)

/-- Non-dimensional covolume `_B` (eos.py lines 790-796, scalar branch). -/
noncomputable def ndB (b p T : ℝ) : ℝ := b * p / (R_IDEAL / 1000 * T)

/-- Density formula `_rho` (eos.py lines 826-829).  `PRESSURE_SCALE` and
`ENERGY_SCALE` come from `porepy.composite._core`, which is not among the
sources; they are passed as the parameters `ps` and `es`. -/
noncomputable def rhoEoS (ps es p T Z : ℝ) : ℝ := Z⁻¹ * p / (T * R_IDEAL) * ps / es

/-- Volume formula `_v` (eos.py lines 831-834), scales as in `rhoEoS`. -/
noncomputable def vEoS (ps es p T Z : ℝ) : ℝ := Z * (T * R_IDEAL) / p * es / ps

/-- Departure enthalpy `_h_dep` (eos.py lines 836-853). -/
noncomputable def hDep (T Z a dTa b B : ℝ) : ℝ :=
  1 / Real.sqrt 8 * (dTa * T - a) / b *
      Real.log ((Z + (1 + Real.sqrt 2) * B) / (Z + (1 - Real.sqrt 2) * B))
    + (Z - 1) * T * R_IDEAL

/-- Compressibility polynomial `_Z_polynom` (eos.py lines 904-912). -/
noncomputable def Z_polynom (Z A B : ℝ) : ℝ :=
  Z ^ 3 + Z ^ 2 * (B - 1) + Z * (A - 2 * B - 3 * B ^ 2) - (A * B - B ^ 3 - B ^ 2)

/-- Fugacity coefficient `_phi_i` (eos.py lines 867-885). -/
noncomputable def phi_i (Z Ai A Bi B a : ℝ) : ℝ :=
  Real.exp
    ((Z - 1) / B * Bi - Real.log (max (Z - B) (0 * B + 1 / 10 ^ 8))
      - A / (B * Real.sqrt 8) * (Ai / a - B⁻¹ * Bi) *
        Real.log ((Z + (1 + Real.sqrt 2) * B) / (Z + (1 - Real.sqrt 2) * B)))

/-- Compressibility derivative `_dxi_Z` (eos.py lines 887-902). -/
noncomputable def dxi_Z (T rho a b bi dxia : ℝ) : ℝ :=
  let d := 1 + 2 * rho * b - (rho * b) ^ 2
  rho * bi / (1 - rho * b) ^ 2 +
    (rho * a * (2 * rho * bi + 2 * rho ^ 2 * b * bi) / (d ^ 2 * T * R_IDEAL)
      - rho * dxia / (d * T * R_IDEAL))

/-- Thermal conductivity `_kappa` (eos.py lines 798-810): the constant `1.0`
regardless of the arguments (an open TODO in the source). -/
noncomputable def kappaEoS (p T Z : ℝ) : ℝ := 1

/-- Dynamic viscosity `_mu` (eos.py lines 812-824): the constant `1.0`
regardless of the arguments (an open TODO in the source). -/
noncomputable def muEoS (p T Z : ℝ) : ℝ := 1

/-- The fields of `PhaseProperties_cubic` (eos.py lines 133-157 together with
the inherited `PhaseProperties` fields visible in the constructor call at
eos.py lines 537-553; the base dataclass lives in `phase.py` of the newer
layout, which is not among the sources). -/
structure PhasePropsCubic where
  a : ℝ
  dT_a : ℝ
  b : ℝ
  A : ℝ
  B : ℝ
  Z : ℝ
  rho : ℝ
  rho_mass : ℝ
  v : ℝ
  h_ideal : ℝ
  h_dep : ℝ
  h : ℝ
  phis : List ℝ
  kappa : ℝ
  mu : ℝ

/-- Per-cell embedding of `PengRobinsonEoS.compute` (eos.py lines 431-553)
from the non-dimensionalisation step on.  The mixture cohesion `a`, its
temperature derivative `dTa`, the covolume `b` and the per-component data
`cdata` (pairs `(b_i, A_i)` of critical covolume and cohesion partial
derivative `_dXi_a`) are parameters: in the source they are produced by the
`VanDerWaals` mixing rule and the component constants
(`peng_robinson/mixing.py`, `pr_components.py`), which are not among the
sources.  Likewise `hid` stands for `get_h_ideal(p, T, X)` and `rhom` for
`get_rho_mass` of the (absent) `AbstractEoS` base class, and `ps`, `es` for
the `_core` scale constants.  `ext` is the per-cell `is_extended` flag.  The
Ben-Gharbia fugacity-extension branch is guarded by the hard-coded `False`
of eos.py line 498 (`if False: #np.any(self.is_extended)`). -/
noncomputable def compute (gl asm ext : Bool) (e s ps es p T : ℝ) (X : List ℝ)
    (a dTa b : ℝ) (cdata : List (ℝ × ℝ)) (hid : ℝ)
    (rhom : ℝ → List ℝ → ℝ) : PhasePropsCubic :=
  let A := ndA a p T
  let B := ndB b p T
  let zz := Z_scalar e s gl asm A B
  let Z := zz.1
  let Zother := zz.2
  let rho := rhoEoS ps es p T Z
  let rhoMass := rhom rho X
  let v := vEoS ps es p T Z
  let hdep := hDep T Z a dTa b B
  let h := hid + hdep
  let extendPhi : Bool := false
  let rhoExt := rhoEoS ps es p T Zother
  let G := Z_polynom Z A B
  let GammaExt := Z * G / ((Z - B) * (Z ^ 2 + 2 * Z * B - B ^ 2))
  let dxiZother := cdata.map fun ci => dxi_Z T rhoExt a b ci.1 ci.2
  let dZother := (List.zipWith (fun x dz => x * dz) X dxiZother).sum
  let phis := List.zipWith
    (fun ci dzi =>
      let Bi := ndB ci.1 p T
      let phi := phi_i Z ci.2 A Bi B a
      if extendPhi && ext then
        phi + GammaExt * ((B - Bi + dZother - dzi) / Z / 2 + (B - Bi) / B)
      else phi)
    cdata dxiZother
  { a := a, dT_a := dTa, b := b, A := A, B := B, Z := Z, rho := rho,
    rho_mass := rhoMass, v := v, h_ideal := hid, h_dep := hdep, h := h,
    phis := phis, kappa := kappaEoS p T Z, mu := muEoS p T Z }

/-! ### Flash solver model (composition.py, `_Newton_min` and history) -/

/-- One entry of `Composition.flash_history`
(composition.py lines 553-577); the variable and equation lists of the
source entry are omitted as they play no role in the claims. -/
structure HistEntry where
  flash : String
  method : String
  iterations : Nat
  success : Bool
deriving DecidableEq

/-- Capacity `_max_history` of the flash history (composition.py line 130). -/
def maxHistory : Nat := 100

/-- `_history_entry` appends and, above capacity, pops the oldest entry
(composition.py lines 565-577). -/
def historyAppend (hist : List HistEntry) (entry : HistEntry) : List HistEntry :=
  let h := hist ++ [entry]
  if maxHistory < h.length then h.tail else h

/-- Default `flash_tolerance` (composition.py line 94, `1e-8`). -/
def flash_tolerance : ℚ := 1 / 10 ^ 8

/-- Default `max_iter_flash` (composition.py line 97). -/
def max_iter_flash : Nat := 1000

/-- Sum of squares of the residual entries. -/
def sumSq (bvec : List ℚ) : ℚ := (bvec.map fun x => x * x).sum

/-- The convergence test `np.linalg.norm(b) <= tol` of `_Newton_min`
(composition.py lines 1021, 1046); `np.linalg.norm` is the Euclidean
2-norm.  Over `ℚ` the test is encoded squared: `‖b‖₂ ≤ tol` holds iff
`0 ≤ tol` and `Σ bᵢ² ≤ tol²` (see `normLe_iff_sqrt`). -/
def normLe (bvec : List ℚ) (tol : ℚ) : Bool :=
  decide (0 ≤ tol ∧ sumSq bvec ≤ tol * tol)

/-- The max-norm `‖b‖∞` of a residual vector.  This follows the words of the
specification (which states the stopping test with the infinity norm); the
source itself uses the Euclidean norm, see `normLe`. -/
def normInf (bvec : List ℚ) : ℚ := (bvec.map fun x => |x|).foldr max 0

/-- Working state of a flash call: the ITERATE buffer, the committed STATE
buffer, and the flash history (the dual-buffer storage the AD substrate
provides, composition.py lines 1030-1055). -/
structure FlashState (σ : Type) where
  iterate : σ
  committed : σ
  history : List HistEntry
deriving DecidableEq

/-- Name recorded with the history entry (composition.py line 1062):
`isenthalpic` when the temperature is among the primary variables. -/
def flashName (ise : Bool) : String :=
  if ise then "isenthalpic" else "isothermal"

/-- The Newton iteration loop of `_Newton_min` (composition.py lines
1030-1058), abstracted over the AD substrate: `f` assembles the residual of
the working iterate and `u` performs one solve-and-update step
(`spsolve` plus the additive `distribute_variable`).  Arguments: remaining
fuel, iterations already executed, working iterate.  Returns
`(success, iter_final, final iterate)`. -/
def newtonGo {σ : Type} (f : σ → List ℚ) (u : σ → σ) (tol : ℚ) :
    Nat → Nat → σ → Bool × Nat × σ
  | 0, k, x => (false, k, x)
  | fuel + 1, k, x =>
    let x2 := u x
    if normLe (f x2) tol then (true, k + 1, x2)
    else newtonGo f u tol fuel (k + 1) x2

/-- Embedding of `_Newton_min` (composition.py lines 989-1070): set the
initial guess `g`, assemble; immediate success with zero iterations when the
residual is already small; otherwise iterate up to `m` steps.  On success
with `copy = true` the working iterate is committed to STATE; on failure the
STATE buffer is never written.  One history entry is recorded in every case.
(The source would raise `NameError` for `m = 0` and a non-converged start,
since `iter_final` is only assigned inside the loop; theorems about the
failure path therefore assume `0 < m`.) -/
def Newton_min {σ : Type} (f : σ → List ℚ) (u g : σ → σ) (tol : ℚ) (m : Nat)
    (ise copy : Bool) (st : FlashState σ) : Bool × FlashState σ :=
  let x0 := g st.iterate
  if normLe (f x0) tol then
    (true, ⟨x0, st.committed,
      historyAppend st.history ⟨flashName ise, "Newton-min", 0, true⟩⟩)
  else
    let r := newtonGo f u tol m 0 x0
    (r.1, ⟨r.2.2, if r.1 && copy then r.2.2 else st.committed,
      historyAppend st.history ⟨flashName ise, "Newton-min", r.2.1, r.1⟩⟩)

/-- `isothermal_flash` (composition.py lines 581-605): `_Newton_min` on the
p-T subsystem, whose primary variables do not contain the temperature. -/
def isothermal_flash {σ : Type} (f : σ → List ℚ) (u g : σ → σ) (tol : ℚ)
    (m : Nat) (copy : Bool) (st : FlashState σ) : Bool × FlashState σ :=
  Newton_min f u g tol m false copy st

/-- `isenthalpic_flash` (composition.py lines 607-631): `_Newton_min` on the
p-h subsystem, whose primary variables contain the temperature. -/
def isenthalpic_flash {σ : Type} (f : σ → List ℚ) (u g : σ → σ) (tol : ℚ)
    (m : Nat) (copy : Bool) (st : FlashState σ) : Bool × FlashState σ :=
  Newton_min f u g tol m true copy st

/-! ### Saturation recovery (composition.py) -/

/-- Per-cell embedding of `_2phase_saturation_evaluation`
(composition.py lines 1103-1155).  Inputs: the molar phase fractions
`y1, y2` (read from `fraction_name`) and the evaluated phase densities.  The
masked writes of the source become conditionals, in write order: the
formula on non-saturated cells, then the overwrite `1` where the own phase
is saturated, then the overwrite `0` where the other phase is saturated. -/
def sat2cell (y1 y2 rho1 rho2 : ℚ) : ℚ × ℚ :=
  let s1a : ℚ := if y2 = 1 then 0 else 1 / (1 + y2 / (1 - y2) * rho1 / rho2)
  let s1b : ℚ := if y1 = 1 then 1 else s1a
  let s1 : ℚ := if y2 = 1 then 0 else s1b
  let s2a : ℚ := if y1 = 1 then 0 else 1 / (1 + y1 / (1 - y1) * rho2 / rho1)
  let s2b : ℚ := if y1 = 1 then 0 else s2a
  let s2 : ℚ := if y2 = 1 then 1 else s2b
  (s1, s2)

/-- The two-phase saturation update in the words of the specification: on a
cell where phase `i` is fully saturated (`y_i = 1`) assign exactly
`s_i = 1, s_j = 0`; otherwise the closed form
`s_i = 1/(1 + (y_j/(1-y_j))·(ρ_i/ρ_j))`. -/
def sat2spec (y1 y2 rho1 rho2 : ℚ) : ℚ × ℚ :=
  if y1 = 1 then (1, 0)
  else if y2 = 1 then (0, 1)
  else (1 / (1 + y2 / (1 - y2) * rho1 / rho2),
        1 / (1 + y1 / (1 - y1) * rho2 / rho1))

/-- Embedding of `_multi_phase_saturation_evaluation`
(composition.py lines 1157-1264) for three phases on a one-cell grid.
`f` holds the values of the molar-fraction variables (`fraction_name`),
`sv` those of the saturation variables (`saturation_name`), `r` the phase
densities.  Faithful to the source, the vector `y` is read from the
SATURATION variables (composition.py lines 1169-1172 use
`phase.saturation_name`), although the doc string of the source says the
computation assumes the molar phase fractions; `f` is therefore unused.
With a single cell either some phase has `y = 1` (then every degree of
freedom is saturated or vanished and assigned directly, the sliced linear
system being empty) or no phase has (then the full 3×3 system with
off-diagonal entries `1 + ρ_j/ρ_i · y_i/(1-y_i)` is solved; the external
`spsolve` is embedded as the exact Cramer solution). -/
def multiSat3 (f sv r : ℚ × ℚ × ℚ) : ℚ × ℚ × ℚ :=
  let y1 := sv.1
  let y2 := sv.2.1
  let y3 := sv.2.2
  let r1 := r.1
  let r2 := r.2.1
  let r3 := r.2.2
  let sat1 : Prop := y1 = 1
  let sat2 : Prop := y2 = 1
  let sat3 : Prop := y3 = 1
  let van1 := sat2 ∨ sat3
  let van2 := sat1 ∨ sat3
  let van3 := sat1 ∨ sat2
  if sat1 ∨ sat2 ∨ sat3 then
    (if van1 then 0 else if sat1 then 1 else 0,
     if van2 then 0 else if sat2 then 1 else 0,
     if van3 then 0 else if sat3 then 1 else 0)
  else
    let den1 : ℚ := if (1 - y1 : ℚ) = 0 then 1 else 1 - y1
    let den2 : ℚ := if (1 - y2 : ℚ) = 0 then 1 else 1 - y2
    let den3 : ℚ := if (1 - y3 : ℚ) = 0 then 1 else 1 - y3
    let a12 := 1 + r2 / r1 * y1 / den1
    let a13 := 1 + r3 / r1 * y1 / den1
    let a21 := 1 + r1 / r2 * y2 / den2
    let a23 := 1 + r3 / r2 * y2 / den2
    let a31 := 1 + r1 / r3 * y3 / den3
    let a32 := 1 + r2 / r3 * y3 / den3
    let det := a12 * a23 * a31 + a13 * a21 * a32
    let d1 := -(a23 * a32) + a12 * a23 + a13 * a32
    let d2 := a23 * a31 + a13 * a21 - a13 * a31
    let d3 := -(a12 * a21) + a12 * a31 + a21 * a32
    (d1 / det, d2 / det, d3 / det)

/-- The multi-phase saturation update as the specification (and the doc
string of the source function) describe it: identical to `multiSat3` except
that the vector `y` is read from the molar-fraction variables `f`. -/
def specMultiSat3 (f sv r : ℚ × ℚ × ℚ) : ℚ × ℚ × ℚ :=
  let y1 := f.1
  let y2 := f.2.1
  let y3 := f.2.2
  let r1 := r.1
  let r2 := r.2.1
  let r3 := r.2.2
  let sat1 : Prop := y1 = 1
  let sat2 : Prop := y2 = 1
  let sat3 : Prop := y3 = 1
  let van1 := sat2 ∨ sat3
  let van2 := sat1 ∨ sat3
  let van3 := sat1 ∨ sat2
  if sat1 ∨ sat2 ∨ sat3 then
    (if van1 then 0 else if sat1 then 1 else 0,
     if van2 then 0 else if sat2 then 1 else 0,
     if van3 then 0 else if sat3 then 1 else 0)
  else
    let den1 : ℚ := if (1 - y1 : ℚ) = 0 then 1 else 1 - y1
    let den2 : ℚ := if (1 - y2 : ℚ) = 0 then 1 else 1 - y2
    let den3 : ℚ := if (1 - y3 : ℚ) = 0 then 1 else 1 - y3
    let a12 := 1 + r2 / r1 * y1 / den1
    let a13 := 1 + r3 / r1 * y1 / den1
    let a21 := 1 + r1 / r2 * y2 / den2
    let a23 := 1 + r3 / r2 * y2 / den2
    let a31 := 1 + r1 / r3 * y3 / den3
    let a32 := 1 + r2 / r3 * y3 / den3
    let det := a12 * a23 * a31 + a13 * a21 * a32
    let d1 := -(a23 * a32) + a12 * a23 + a13 * a32
    let d2 := a23 * a31 + a13 * a21 - a13 * a31
    let d3 := -(a12 * a21) + a12 * a31 + a21 * a32
    (d1 / det, d2 / det, d3 / det)

/-! ### `Composition.initialize` model (composition.py lines 360-507) -/

/-- The triple of equation names, primary variable names and secondary
variable names of a flash subsystem (`_get_subsystem_dict`,
composition.py lines 452-458). -/
structure Subsys where
  equations : List String
  primary_vars : List String
  secondary_vars : List String
deriving DecidableEq

/-- Modelled from the spec: the symbol table `VARIABLE_SYMBOLS` is imported
from `_composite_utils`, where it is not present among the sources; the
spec's data model (section 3) writes pressure `p`. -/
def pName : String := "p"

/-- Modelled from the spec: enthalpy symbol `h` (see `pName`). -/
def hName : String := "h"

/-- Modelled from the spec: temperature symbol `T` (see `pName`). -/
def TName : String := "T"

/-- Modelled from the spec: feed-fraction variable name `z_<component>`
(`component.fraction_name`; `component.py` is not among the sources). -/
def feedName (c : String) : String := "z_" ++ c

/-- Saturation variable name (phase.py lines 102-105), with the symbol
modelled from the spec as `s`. -/
def satName (ph : String) : String := "s_" ++ ph

/-- Molar phase fraction variable name (phase.py lines 121-124), symbol `y`. -/
def yName (ph : String) : String := "y_" ++ ph

/-- Phase composition variable name (phase.py lines 140-150), symbol `xi`. -/
def xiName (c ph : String) : String := "xi_" ++ c ++ "_" ++ ph

/-- The per-phase part of `_set_subsystem_vars` (composition.py lines
491-507): non-reference phase fractions and all per-phase composition
variables are primary, the reference phase fraction is secondary.  Returns
`(primary, secondary)` contributions in loop order. -/
def phaseVarLoop (ref : String) (comps : List String) :
    List String → List String × List String
  | [] => ([], [])
  | ph :: rest =>
    let p := phaseVarLoop ref comps rest
    ((if ph ≠ ref then [yName ph] else []) ++ comps.map (fun c => xiName c ph) ++ p.1,
     (if ph = ref then [yName ph] else []) ++ p.2)

/-- Equation-name list shared by both subsystems (composition.py lines
390-435): mass conservation per non-reference component; for a single
component its own mass balance, otherwise the complementary (KKT) condition
of the reference phase; then one KKT condition per non-reference phase.
The source names the reference-phase equation by formatting the `Phase`
object itself (composition.py line 411); that CPython default repr is
modelled here by the phase name. -/
def flashEquations (comps phases : List String) : List String :=
  (comps.drop 1).map (fun c => "flash_mass_" ++ c) ++
    (if comps.length = 1 then
      (comps.take 1).map (fun c => "flash_mass_" ++ c)
     else
      (phases.take 1).map (fun ph => "flash_KKT_" ++ ph)) ++
    (phases.drop 1).map (fun ph => "flash_KKT_" ++ ph)

/-- The p-T subsystem built by `initialize` (composition.py lines 360-507). -/
def pTsub (comps phases : List String) : Subsys :=
  let ref := phases.headD ""
  let lp := phaseVarLoop ref comps phases
  ⟨flashEquations comps phases,
   lp.1,
   [pName, hName, TName] ++ comps.map feedName ++ phases.map satName ++ lp.2⟩

/-- The p-h subsystem built by `initialize`: additionally the enthalpy
constraint equation and the temperature as a primary variable. -/
def phsub (comps phases : List String) : Subsys :=
  let ref := phases.headD ""
  let lp := phaseVarLoop ref comps phases
  ⟨flashEquations comps phases ++ ["flash_h_constraint"],
   lp.1 ++ [TName],
   [pName, hName] ++ comps.map feedName ++ phases.map satName ++ lp.2⟩

/-- Embedding of `Composition.initialize` (composition.py lines 360-451):
assert at least one component (line 377), build the subsystem variable
lists, assert a non-empty phase list (line 385), then build the equations
and store both subsystems.  Solute fractions of `Compound` components are
not modelled (plain components only). -/
def initFlash (comps phases : List String) : Except String (Subsys × Subsys) :=
  if comps.length < 1 then Except.error "AssertionError"
  else if phases = [] then Except.error "AssertionError"
  else Except.ok (pTsub comps phases, phsub comps phases)

/-! ## Helper lemmas: real cube roots and the critical constants -/

theorem cbrt_of_nonneg {x : ℝ} (hx : 0 ≤ x) : cbrt x = x ^ ((1 : ℝ) / 3) :=
  if_neg (not_lt.mpr hx)

theorem cbrt_nonneg {x : ℝ} (hx : 0 ≤ x) : 0 ≤ cbrt x := by
  rw [cbrt_of_nonneg hx]
  exact Real.rpow_nonneg hx _

theorem cbrt_cube {x : ℝ} (hx : 0 ≤ x) : cbrt x ^ 3 = x := by
  rw [cbrt_of_nonneg hx, ← Real.rpow_natCast (x ^ ((1 : ℝ) / 3)) 3,
    ← Real.rpow_mul hx]
  norm_num

theorem cbrt_of_pow {y : ℝ} (hy : 0 ≤ y) : cbrt (y ^ 3) = y := by
  rw [cbrt_of_nonneg (pow_nonneg hy 3), ← Real.rpow_natCast y 3,
    ← Real.rpow_mul hy]
  norm_num

theorem cbrt_mul {x y : ℝ} (hx : 0 ≤ x) (hy : 0 ≤ y) :
    cbrt (x * y) = cbrt x * cbrt y := by
  rw [cbrt_of_nonneg (mul_nonneg hx hy), cbrt_of_nonneg hx, cbrt_of_nonneg hy]
  exact Real.mul_rpow hx hy

theorem cbrt_le_cbrt {x y : ℝ} (hx : 0 ≤ x) (hxy : x ≤ y) :
    cbrt x ≤ cbrt y := by
  rw [cbrt_of_nonneg hx, cbrt_of_nonneg (hx.trans hxy)]
  exact Real.rpow_le_rpow hx hxy (by norm_num)

theorem sqrt2_sq : Real.sqrt 2 ^ 2 = 2 := Real.sq_sqrt (by norm_num)

theorem sqrt2_nonneg : 0 ≤ Real.sqrt 2 := Real.sqrt_nonneg 2

theorem thirteen_le_16sqrt2 : (13 : ℝ) ≤ 16 * Real.sqrt 2 := by
  have h : (13 / 16 : ℝ) ≤ Real.sqrt 2 :=
    (Real.le_sqrt (by norm_num) (by norm_num)).mpr (by norm_num)
  linarith

theorem big_sqrt2_le : 192512 * Real.sqrt 2 ≤ (276231 : ℝ) := by
  have h : Real.sqrt 2 ≤ 276231 / 192512 :=
    Real.sqrt_le_iff.mpr ⟨by norm_num, by norm_num⟩
  linarith

theorem dCrit_cubic : dCrit ^ 3 + 21 * dCrit - 26 = 0 := by
  have ha : (0 : ℝ) ≤ 16 * Real.sqrt 2 - 13 := by linarith [thirteen_le_16sqrt2]
  have hb : (0 : ℝ) ≤ 16 * Real.sqrt 2 + 13 := by linarith [thirteen_le_16sqrt2]
  have ha3 : cbrt (16 * Real.sqrt 2 - 13) ^ 3 = 16 * Real.sqrt 2 - 13 :=
    cbrt_cube ha
  have hb3 : cbrt (16 * Real.sqrt 2 + 13) ^ 3 = 16 * Real.sqrt 2 + 13 :=
    cbrt_cube hb
  have hprod : (16 * Real.sqrt 2 - 13) * (16 * Real.sqrt 2 + 13) = 343 := by
    linear_combination (256 : ℝ) * sqrt2_sq
  have hab : cbrt (16 * Real.sqrt 2 - 13) * cbrt (16 * Real.sqrt 2 + 13) = 7 := by
    rw [← cbrt_mul ha hb, hprod, show (343 : ℝ) = 7 ^ 3 by norm_num,
      cbrt_of_pow (by norm_num)]
  unfold dCrit
  linear_combination hb3 - ha3 -
    3 * (cbrt (16 * Real.sqrt 2 + 13) - cbrt (16 * Real.sqrt 2 - 13)) * hab

theorem dCrit_nonneg : 0 ≤ dCrit := by
  have ha : (0 : ℝ) ≤ 16 * Real.sqrt 2 - 13 := by linarith [thirteen_le_16sqrt2]
  have := cbrt_le_cbrt ha (show 16 * Real.sqrt 2 - 13 ≤ 16 * Real.sqrt 2 + 13 by
    linarith)
  unfold dCrit
  linarith

theorem dCrit_gt : 1 / 3 < dCrit := by
  by_contra h
  push_neg at h
  have h3 : dCrit ^ 3 ≤ (1 / 3 : ℝ) ^ 3 := pow_le_pow_left₀ dCrit_nonneg h 3
  have := dCrit_cubic
  nlinarith

theorem dCrit_lt : dCrit < 26 / 21 := by
  have h3 : 0 < dCrit ^ 3 := pow_pos (lt_trans (by norm_num) dCrit_gt) 3
  have := dCrit_cubic
  linarith

theorem eCrit_cubic : eCrit ^ 3 - 3891 * eCrit - 552462 = 0 := by
  have ha : (0 : ℝ) ≤ 276231 - 192512 * Real.sqrt 2 := by linarith [big_sqrt2_le]
  have hb : (0 : ℝ) ≤ 276231 + 192512 * Real.sqrt 2 := by linarith [sqrt2_nonneg]
  have ha3 : cbrt (276231 - 192512 * Real.sqrt 2) ^ 3
      = 276231 - 192512 * Real.sqrt 2 := cbrt_cube ha
  have hb3 : cbrt (276231 + 192512 * Real.sqrt 2) ^ 3
      = 276231 + 192512 * Real.sqrt 2 := cbrt_cube hb
  have hprod : (276231 - 192512 * Real.sqrt 2) * (276231 + 192512 * Real.sqrt 2)
      = 2181825073 := by
    linear_combination (-(192512 : ℝ) ^ 2) * sqrt2_sq
  have hab : cbrt (276231 - 192512 * Real.sqrt 2) *
      cbrt (276231 + 192512 * Real.sqrt 2) = 1297 := by
    rw [← cbrt_mul ha hb, hprod, show (2181825073 : ℝ) = 1297 ^ 3 by norm_num,
      cbrt_of_pow (by norm_num)]
  unfold eCrit
  linear_combination ha3 + hb3 +
    3 * (cbrt (276231 - 192512 * Real.sqrt 2) +
      cbrt (276231 + 192512 * Real.sqrt 2)) * hab

theorem eCrit_nonneg : 0 ≤ eCrit := by
  have ha : (0 : ℝ) ≤ 276231 - 192512 * Real.sqrt 2 := by linarith [big_sqrt2_le]
  have hb : (0 : ℝ) ≤ 276231 + 192512 * Real.sqrt 2 := by linarith [sqrt2_nonneg]
  have := cbrt_nonneg ha
  have := cbrt_nonneg hb
  unfold eCrit
  linarith

theorem eCrit_ge : 73 ≤ eCrit := by
  by_contra h
  push_neg at h
  have h3 : eCrit ^ 3 < (73 : ℝ) ^ 3 := by
    apply pow_lt_pow_left₀ h eCrit_nonneg
    norm_num
  have := eCrit_cubic
  nlinarith [eCrit_nonneg]

theorem eCrit_le : eCrit ≤ 98 := by
  by_contra h
  push_neg at h
  have hpos : (0 : ℝ) < eCrit ^ 2 + 98 * eCrit + 5713 := by positivity
  have := eCrit_cubic
  nlinarith [mul_pos (sub_pos.mpr h) hpos]

theorem eCrit_eq : eCrit = 5 * dCrit ^ 2 + 18 * dCrit + 70 := by
  have hE : (5 * dCrit ^ 2 + 18 * dCrit + 70) ^ 3
      - 3891 * (5 * dCrit ^ 2 + 18 * dCrit + 70) - 552462 = 0 := by
    linear_combination
      (125 * dCrit ^ 3 + 1350 * dCrit ^ 2 + 7485 * dCrit + 18532) * dCrit_cubic
  have hE73 : (73 : ℝ) ≤ 5 * dCrit ^ 2 + 18 * dCrit + 70 := by
    nlinarith [dCrit_gt, sq_nonneg dCrit]
  have hfac : (eCrit - (5 * dCrit ^ 2 + 18 * dCrit + 70)) *
      (eCrit ^ 2 + eCrit * (5 * dCrit ^ 2 + 18 * dCrit + 70)
        + (5 * dCrit ^ 2 + 18 * dCrit + 70) ^ 2 - 3891) = 0 := by
    linear_combination eCrit_cubic - hE
  rcases mul_eq_zero.mp hfac with h | h
  · linarith [sub_eq_zero.mp h]
  · nlinarith [eCrit_ge, hE73]

theorem B_CRIT_eq : B_CRIT = (3 * dCrit - 1) / 32 := by
  unfold B_CRIT dCrit
  ring

theorem Z_CRIT_eq : Z_CRIT = (11 - dCrit) / 32 := by
  unfold Z_CRIT dCrit
  ring

theorem A_CRIT_eCrit : A_CRIT = (3 * eCrit - 59) / 512 := by
  unfold A_CRIT eCrit
  ring

theorem A_CRIT_eq : A_CRIT = (15 * dCrit ^ 2 + 54 * dCrit + 151) / 512 := by
  rw [A_CRIT_eCrit, eCrit_eq]
  ring

theorem A_CRIT_lb : 160 / 512 ≤ A_CRIT := by
  rw [A_CRIT_eCrit]
  linarith [eCrit_ge]

theorem A_CRIT_ub : A_CRIT ≤ 235 / 512 := by
  rw [A_CRIT_eCrit]
  linarith [eCrit_le]

theorem B_CRIT_lb : 0 ≤ B_CRIT := by
  rw [B_CRIT_eq]
  linarith [dCrit_gt]

theorem B_CRIT_ub : B_CRIT ≤ 19 / 224 := by
  rw [B_CRIT_eq]
  linarith [dCrit_lt]

theorem crit_r : rC A_CRIT B_CRIT = 0 := by
  unfold rC c1 c2
  rw [A_CRIT_eq, B_CRIT_eq]
  ring

theorem crit_q : qC A_CRIT B_CRIT = 0 := by
  unfold qC c0 c1 c2
  rw [A_CRIT_eq, B_CRIT_eq]
  linear_combination (-(1 : ℝ) / 512) * dCrit_cubic

theorem crit_delta : deltaC A_CRIT B_CRIT = 0 := by
  unfold deltaC
  rw [crit_q, crit_r]
  norm_num

/-! ## C1: the four root regions partition every real `(A, B)` pair -/

/-- C1: for every real input pair `(A, B)` to `_Z` and every nonnegative
tolerance `eps`, the four root regions (one-root `Δ > ε`, three-root
`Δ < -ε`, double-root `|Δ| ≤ ε ∧ |r| > ε`, triple-root `|Δ| ≤ ε ∧ |r| ≤ ε`)
classify the cell into exactly one region: the classification is
collectively exhaustive and mutually exclusive, so the two partition
assertions of `_Z` (eos.py lines 1023-1042) never fire. -/
theorem regionPartition (e A B : ℝ) (he : 0 ≤ e) :
    (oneRootRegion e A B ∨ threeRootRegion e A B ∨ doubleRootRegion e A B ∨
      tripleRootRegion e A B)
    ∧ ¬(oneRootRegion e A B ∧ threeRootRegion e A B)
    ∧ ¬(oneRootRegion e A B ∧ doubleRootRegion e A B)
    ∧ ¬(oneRootRegion e A B ∧ tripleRootRegion e A B)
    ∧ ¬(threeRootRegion e A B ∧ doubleRootRegion e A B)
    ∧ ¬(threeRootRegion e A B ∧ tripleRootRegion e A B)
    ∧ ¬(doubleRootRegion e A B ∧ tripleRootRegion e A B) := by
  unfold oneRootRegion threeRootRegion doubleRootRegion tripleRootRegion
    degenerateRegion
  refine ⟨?_, ?_, ?_, ?_, ?_, ?_, ?_⟩
  · by_cases h1 : e < deltaC A B
    · exact Or.inl h1
    by_cases h2 : deltaC A B < -e
    · exact Or.inr (Or.inl h2)
    push_neg at h1 h2
    by_cases h3 : -e ≤ rC A B ∧ rC A B ≤ e
    · exact Or.inr (Or.inr (Or.inr ⟨⟨h2, h1⟩, h3⟩))
    · refine Or.inr (Or.inr (Or.inl ⟨⟨h2, h1⟩, ?_⟩))
      rcases not_and_or.mp h3 with h | h
      · exact Or.inl (not_le.mp h)
      · exact Or.inr (not_le.mp h)
  · rintro ⟨h1, h2⟩
    linarith
  · rintro ⟨h1, ⟨_, h2⟩, _⟩
    linarith
  · rintro ⟨h1, ⟨_, h2⟩, _⟩
    linarith
  · rintro ⟨h1, ⟨h2, _⟩, _⟩
    linarith
  · rintro ⟨h1, ⟨h2, _⟩, _⟩
    linarith
  · rintro ⟨⟨_, hor⟩, _, hle, hge⟩
    rcases hor with h | h <;> linarith

/-- Witness for `regionPartition` at the concrete tolerance `1e-14` (the
source default) and the concrete cell `(A, B) = (0, 0)`. -/
theorem regionPartition_witness :
    (0 : ℝ) ≤ 1 / 10 ^ 14 ∧
      (oneRootRegion (1 / 10 ^ 14) 0 0 ∨ threeRootRegion (1 / 10 ^ 14) 0 0 ∨
        doubleRootRegion (1 / 10 ^ 14) 0 0 ∨ tripleRootRegion (1 / 10 ^ 14) 0 0) :=
  ⟨by norm_num, (regionPartition (1 / 10 ^ 14) 0 0 (by norm_num)).1⟩

/-! ## C5: `_Z` at the exact critical point returns the triple root -/

theorem epsD_pos : (0 : ℝ) < epsD := by
  unfold epsD
  norm_num

/-- C5: evaluated at exactly `(A, B) = (A_CRIT, B_CRIT)` with the default
tolerance, both roots returned by `_Z` equal the critical compressibility
factor: `Z_L = Z_G = Z_CRIT`, and the triple root `(1 - B_CRIT)/3` equals
`Z_CRIT`; this holds for either phase label and with or without the
smoothing pass. -/
theorem Z_at_critical (s : ℝ) (g asm : Bool) :
    Z_scalar epsD s g asm A_CRIT B_CRIT = (Z_CRIT, Z_CRIT) ∧
      (1 - B_CRIT) / 3 = Z_CRIT := by
  have hepos := epsD_pos
  have hAlb := A_CRIT_lb
  have hD : ¬(doubleRootRegion epsD A_CRIT B_CRIT ∨
      zeroPoint epsD A_CRIT B_CRIT) := by
    rintro (⟨_, hr⟩ | ⟨⟨_, hA⟩, _⟩)
    · rw [crit_r] at hr
      rcases hr with hr | hr <;> linarith
    · have h14 : (1 : ℝ) / 10 ^ 14 < 160 / 512 := by norm_num
      unfold epsD at hA
      linarith
  have hT : tripleRootRegion epsD A_CRIT B_CRIT ∨
      criticalPoint epsD A_CRIT B_CRIT :=
    Or.inr ⟨⟨by linarith, by linarith⟩, ⟨by linarith, by linarith⟩⟩
  have hz : tripleRootZ A_CRIT B_CRIT = Z_CRIT := by
    unfold tripleRootZ c2
    rw [B_CRIT_eq, Z_CRIT_eq]
    ring
  have hnc : ¬(Z_CRIT ≤ B_CRIT) := by
    rw [Z_CRIT_eq, B_CRIT_eq]
    push_neg
    linarith [dCrit_lt]
  have hLG : Z_LG epsD s asm A_CRIT B_CRIT = (Z_CRIT, Z_CRIT) := by
    unfold Z_LG
    rw [if_neg hD, if_pos hT, hz]
    unfold correctPair
    dsimp only
    rw [if_neg hnc]
  refine ⟨?_, ?_⟩
  · cases g <;> simp [Z_scalar, hLG]
  · rw [Z_CRIT_eq, B_CRIT_eq]
    ring

/-! ## C4: only the liquid root is nudged above `B`; the gas root is not -/

theorem one_lt_cbrt_three : 1 < cbrt 3 := by
  by_contra h
  push_neg at h
  have h1 : cbrt 3 ^ 3 ≤ 1 :=
    pow_le_one₀ (cbrt_nonneg (by norm_num : (0 : ℝ) ≤ 3)) h
  rw [cbrt_cube (by norm_num : (0 : ℝ) ≤ 3)] at h1
  norm_num at h1

theorem rC_51 : rC 5 1 = 0 := by
  unfold rC c1 c2
  norm_num

theorem qC_51 : qC 5 1 = -3 := by
  unfold qC c0 c1 c2
  norm_num

theorem deltaC_51 : deltaC 5 1 = 9 / 4 := by
  unfold deltaC
  rw [rC_51, qC_51]
  norm_num

theorem oneRootZ_51 : oneRootZ 5 1 = (cbrt 3, 1 + B_CRIT - cbrt 3 / 2) := by
  have hsub : isSubPseudoCritical 5 1 := by
    unfold isSubPseudoCritical
    nlinarith [B_CRIT_lb, A_CRIT_ub]
  have hsqrt : Real.sqrt (deltaC 5 1) = 3 / 2 := by
    rw [deltaC_51, show (9 / 4 : ℝ) = (3 / 2) ^ 2 by norm_num,
      Real.sqrt_sq (by norm_num)]
  simp only [oneRootZ, hsqrt, qC_51, rC_51, if_pos hsub]
  norm_num
  unfold c2
  constructor
  · ring
  · ring

/-- C4, counterexample: at the concrete input `(A, B) = (5, 1)` (one-root
region, sub-pseudo-critical side) the gas-like root returned by `_Z` with
default tolerance is at most `B = 1`.  Only the liquid root is corrected by
the nudge of eos.py lines 1185-1188, so the claim that every root returned
by `_Z` is strictly greater than `B` is false. -/
theorem Z_gas_root_not_gt_B :
    (Z_scalar epsD (1 / 10 ^ 4) true false 5 1).1 ≤ 1 := by
  have hepos := epsD_pos
  have hAub := A_CRIT_ub
  have h01 : ¬(doubleRootRegion epsD 5 1 ∨ zeroPoint epsD 5 1) := by
    rintro (⟨⟨_, hle⟩, _⟩ | ⟨_, _, hB⟩)
    · rw [deltaC_51] at hle
      unfold epsD at hle
      norm_num at hle
    · unfold epsD at hB
      norm_num at hB
  have h02 : ¬(tripleRootRegion epsD 5 1 ∨ criticalPoint epsD 5 1) := by
    rintro (⟨⟨_, hle⟩, _⟩ | ⟨⟨_, hA⟩, _⟩)
    · rw [deltaC_51] at hle
      unfold epsD at hle
      norm_num at hle
    · have h14 : (0 : ℝ) < 1 / 10 ^ 14 := by norm_num
      unfold epsD at hA
      linarith
  have h03 : ¬threeRootRegion epsD 5 1 := by
    unfold threeRootRegion
    rw [deltaC_51]
    unfold epsD
    norm_num
  have h04 : oneRootRegion epsD 5 1 := by
    unfold oneRootRegion
    rw [deltaC_51]
    unfold epsD
    norm_num
  have hnc : ¬(cbrt 3 ≤ (1 : ℝ)) := not_le.mpr one_lt_cbrt_three
  have hLG : Z_LG epsD (1 / 10 ^ 4) false 5 1
      = (cbrt 3, 1 + B_CRIT - cbrt 3 / 2) := by
    unfold Z_LG
    rw [if_neg h01, if_neg h02, if_neg h03, if_pos h04, oneRootZ_51]
    unfold correctPair
    dsimp only
    rw [if_neg hnc]
  have hZs : Z_scalar epsD (1 / 10 ^ 4) true false 5 1
      = ((Z_LG epsD (1 / 10 ^ 4) false 5 1).2,
         (Z_LG epsD (1 / 10 ^ 4) false 5 1).1) := by
    simp [Z_scalar]
  rw [hZs, hLG]
  dsimp only
  linarith [B_CRIT_ub, one_lt_cbrt_three]

/-- C4, amended: for every `(A, B)` and every positive tolerance, the
liquid-like root returned by `_Z` (the second component for the gas-like
phase, the first for the liquid-like phase) is strictly greater than `B`,
because the final correction nudges it to `B + ε` whenever it falls at or
below `B`; no such guarantee holds for the gas-like root. -/
theorem Z_liquid_root_gt_B (e s A B : ℝ) (asm : Bool) (he : 0 < e) :
    B < (Z_scalar e s true asm A B).2 ∧ B < (Z_scalar e s false asm A B).1 := by
  have hc : ∀ p : ℝ × ℝ, B < (correctPair e B p).1 := by
    intro p
    unfold correctPair
    dsimp only
    split_ifs with h
    · linarith
    · exact not_le.mp h
  constructor
  · have hZs : Z_scalar e s true asm A B
        = ((Z_LG e s asm A B).2, (Z_LG e s asm A B).1) := by
      simp [Z_scalar]
    rw [hZs]
    show B < (Z_LG e s asm A B).1
    unfold Z_LG
    exact hc _
  · have hZs : Z_scalar e s false asm A B = Z_LG e s asm A B := by
      simp [Z_scalar]
    rw [hZs]
    unfold Z_LG
    exact hc _

/-- Witness for `Z_liquid_root_gt_B` at the default tolerance and the cell
`(A, B) = (5, 1)`. -/
theorem Z_liquid_root_gt_B_witness :
    (0 : ℝ) < epsD ∧ (1 : ℝ) < (Z_scalar epsD (1 / 10 ^ 4) false false 5 1).1 :=
  ⟨epsD_pos, (Z_liquid_root_gt_B epsD (1 / 10 ^ 4) 5 1 false epsD_pos).2⟩

/-! ## Flash solver: convergence-failure and zero-iteration behaviour -/

theorem sumSq_nonneg (b : List ℚ) : 0 ≤ sumSq b := by
  unfold sumSq
  apply List.sum_nonneg
  intro x hx
  simp only [List.mem_map] at hx
  obtain ⟨y, _, rfl⟩ := hx
  exact mul_self_nonneg y

/-- The squared encoding of the stopping test agrees with the Euclidean-norm
test of the source: `normLe b tol` holds exactly when `√(Σ bᵢ²) ≤ tol`. -/
theorem normLe_iff_sqrt (b : List ℚ) (tol : ℚ) :
    normLe b tol = true ↔ Real.sqrt ((sumSq b : ℚ) : ℝ) ≤ ((tol : ℚ) : ℝ) := by
  unfold normLe
  simp only [decide_eq_true_eq]
  rw [Real.sqrt_le_iff]
  constructor
  · rintro ⟨h1, h2⟩
    refine ⟨by exact_mod_cast h1, ?_⟩
    rw [sq]
    exact_mod_cast h2
  · rintro ⟨h1, h2⟩
    rw [sq] at h2
    exact ⟨by exact_mod_cast h1, by exact_mod_cast h2⟩

/-- If the residual stays above the tolerance along the whole orbit, the
Newton loop consumes all its fuel and reports failure after exactly `fuel`
iterations, leaving the working iterate at the last attempted step. -/
theorem newtonGo_exhaust {σ : Type} (f : σ → List ℚ) (u : σ → σ) (tol : ℚ) :
    ∀ (fuel k : Nat) (x : σ),
      (∀ j, 1 ≤ j → j ≤ fuel → normLe (f (u^[j] x)) tol = false) →
      newtonGo f u tol fuel k x = (false, k + fuel, u^[fuel] x) := by
  intro fuel
  induction fuel with
  | zero =>
    intro k x _
    simp [newtonGo]
  | succ n ih =>
    intro k x h
    have h1 : normLe (f (u x)) tol = false := by
      have := h 1 le_rfl (by omega)
      rwa [Function.iterate_one] at this
    have h2 : ∀ j, 1 ≤ j → j ≤ n → normLe (f (u^[j] (u x))) tol = false := by
      intro j hj1 hj2
      have := h (j + 1) (by omega) (by omega)
      rwa [Function.iterate_succ_apply] at this
    simp only [newtonGo, h1, Bool.false_eq_true, if_false]
    rw [ih (k + 1) (u x) h2]
    have hk : k + 1 + n = k + (n + 1) := by omega
    rw [hk, Function.iterate_succ_apply]

/-- C2: when `_Newton_min` exhausts `max_iter_flash` iterations without the
residual norm dropping below the tolerance, it returns `False` (it is a
total function, no exception), appends exactly one (failure) history entry,
and leaves the committed STATE buffer unchanged, even when
`copy_to_state = true` was requested; the working ITERATE reflects the
attempted steps.  This covers both `isothermal_flash` and
`isenthalpic_flash`, which call `_Newton_min` with their subsystem. -/
theorem newton_exhaustion {σ : Type} (f : σ → List ℚ) (u g : σ → σ) (tol : ℚ)
    (m : Nat) (ise copy : Bool) (st : FlashState σ) (hm : 0 < m)
    (hdiv : ∀ j, j ≤ m → normLe (f (u^[j] (g st.iterate))) tol = false) :
    Newton_min f u g tol m ise copy st =
      (false, ⟨u^[m] (g st.iterate), st.committed,
        historyAppend st.history ⟨flashName ise, "Newton-min", m, false⟩⟩) := by
  have h0 : normLe (f (g st.iterate)) tol = false := by
    have := hdiv 0 (Nat.zero_le m)
    rwa [Function.iterate_zero_apply] at this
  have hloop := newtonGo_exhaust f u tol m 0 (g st.iterate)
    (fun j _ hj2 => hdiv j hj2)
  unfold Newton_min
  simp only [h0, Bool.false_eq_true, if_false, hloop, Bool.false_and,
    Nat.zero_add]

/-- Witness for `newton_exhaustion`: a constant unit residual never
converges; with `copy_to_state = true` the committed value stays `0`. -/
theorem newton_exhaustion_witness :
    (Newton_min (σ := ℚ) (fun x => [1]) (fun x => x) (fun x => x)
        flash_tolerance 2 false true ⟨0, 0, []⟩).1 = false ∧
      (Newton_min (σ := ℚ) (fun x => [1]) (fun x => x) (fun x => x)
        flash_tolerance 2 false true ⟨0, 0, []⟩).2.committed = 0 := by
  have hc : normLe [1] flash_tolerance = false := by
    unfold normLe
    rw [decide_eq_false_iff_not]
    rintro ⟨-, h2⟩
    norm_num [sumSq, flash_tolerance] at h2
  have h := newton_exhaustion (σ := ℚ) (fun x => [1]) (fun x => x) (fun x => x)
    flash_tolerance 2 false true ⟨0, 0, []⟩ (by norm_num) (fun j _ => hc)
  exact ⟨by rw [h], by rw [h]⟩

/-- C7, counterexample: a residual whose max-norm is exactly the tolerance
(`b = (1e-8, 1e-8)`, `‖b‖∞ = 1e-8 ≤ tol`) does NOT make `_Newton_min`
declare success with zero iterations: the source tests the Euclidean norm
`‖b‖₂ = √2·1e-8 > tol`, enters the iteration loop, and the history entry
records one iteration and failure. -/
theorem flash_infnorm_not_sufficient :
    normInf [1 / 10 ^ 8, 1 / 10 ^ 8] ≤ flash_tolerance ∧
    (Newton_min (σ := ℚ) (fun x => [1 / 10 ^ 8, 1 / 10 ^ 8]) (fun x => x)
        (fun x => x) flash_tolerance 1 false false ⟨0, 0, []⟩).1 = false ∧
    (Newton_min (σ := ℚ) (fun x => [1 / 10 ^ 8, 1 / 10 ^ 8]) (fun x => x)
        (fun x => x) flash_tolerance 1 false false ⟨0, 0, []⟩).2.history
      = [⟨"isothermal", "Newton-min", 1, false⟩] := by
  have hstep : normLe [(1 : ℚ) / 10 ^ 8, 1 / 10 ^ 8] flash_tolerance = false := by
    unfold normLe
    rw [decide_eq_false_iff_not]
    rintro ⟨-, h2⟩
    norm_num [sumSq, flash_tolerance] at h2
  have hloop := newtonGo_exhaust (σ := ℚ) (fun x => [1 / 10 ^ 8, 1 / 10 ^ 8])
    (fun x => x) flash_tolerance 1 0 0 (fun j _ _ => hstep)
  have hrun : Newton_min (σ := ℚ) (fun x => [1 / 10 ^ 8, 1 / 10 ^ 8])
      (fun x => x) (fun x => x) flash_tolerance 1 false false ⟨0, 0, []⟩
      = (false, ⟨0, 0, [⟨"isothermal", "Newton-min", 1, false⟩]⟩) := by
    unfold Newton_min
    simp only [hstep, Bool.false_eq_true, if_false, hloop, Bool.false_and]
    simp [historyAppend, maxHistory, flashName]
  have habs : |(1 : ℚ) / 10 ^ 8| = 1 / 10 ^ 8 := abs_of_nonneg (by norm_num)
  refine ⟨?_, by rw [hrun], by rw [hrun]⟩
  simp only [normInf, List.map_cons, List.map_nil, List.foldr_cons,
    List.foldr_nil, habs, max_le_iff]
  norm_num [flash_tolerance]

/-- C7, amended: if the residual assembled at the initial guess already
satisfies `‖b‖₂ ≤ tol` in the Euclidean norm used by the source (with the
tolerance defaulting to `flash_tolerance = 1e-8`), then the flash declares
success immediately: it returns `true`, performs no solve step (the iterate
is exactly the initial guess), and the history entry records zero
iterations. -/
theorem newton_zero_iterations {σ : Type} (f : σ → List ℚ) (u g : σ → σ)
    (tol : ℚ) (m : Nat) (ise copy : Bool) (st : FlashState σ)
    (h : normLe (f (g st.iterate)) tol = true) :
    Newton_min f u g tol m ise copy st =
      (true, ⟨g st.iterate, st.committed,
        historyAppend st.history ⟨flashName ise, "Newton-min", 0, true⟩⟩) := by
  unfold Newton_min
  simp only [h, if_true]

/-- Witness for `newton_zero_iterations` at the default tolerance. -/
theorem newton_zero_iterations_witness :
    normLe [0] flash_tolerance = true ∧
      Newton_min (σ := ℚ) (fun x => [0]) (fun x => x) (fun x => x)
          flash_tolerance 1000 false true ⟨0, 0, []⟩
        = (true, ⟨0, 0, [⟨"isothermal", "Newton-min", 0, true⟩]⟩) := by
  have h0 : normLe [(0 : ℚ)] flash_tolerance = true := by
    unfold normLe
    simp only [decide_eq_true_eq]
    constructor
    · norm_num [flash_tolerance]
    · norm_num [sumSq, flash_tolerance]
  have h := newton_zero_iterations (σ := ℚ) (fun x => [0]) (fun x => x)
    (fun x => x) flash_tolerance 1000 false true ⟨0, 0, []⟩ h0
  refine ⟨h0, ?_⟩
  rw [h]
  simp [historyAppend, maxHistory, flashName]

/-! ## Saturation recovery -/

/-- C6, counterexample: on a (degenerate) cell where BOTH molar fractions
equal `1`, the overwrite order of `_2phase_saturation_evaluation` gives
`s = (0, 1)`: phase 1 has `y₁ = 1` yet its saturation is not `1`, so the
claimed per-cell assignment (`y_i = 1 ↦ s_i = 1, s_j = 0`) fails there. -/
theorem sat2_both_saturated :
    sat2cell 1 1 1 1 = (0, 1) ∧ (sat2cell 1 1 1 1).1 ≠ 1 := by decide

/-- C6, amended: on every cell where at most one of the two phases is fully
saturated, `_2phase_saturation_evaluation` computes exactly the
specification's values: `s_i = 1, s_j = 0` where `y_i = 1` (assigned
directly, the divisions being masked out), and the closed form
`s_i = 1/(1 + (y_j/(1-y_j))·(ρ_i/ρ_j))` on non-saturated cells. -/
theorem sat2_matches_spec (y1 y2 r1 r2 : ℚ) (h : ¬(y1 = 1 ∧ y2 = 1)) :
    sat2cell y1 y2 r1 r2 = sat2spec y1 y2 r1 r2 := by
  by_cases h1 : y1 = 1
  · have h2 : ¬(y2 = 1) := fun h2 => h ⟨h1, h2⟩
    simp [sat2cell, sat2spec, h1, h2]
  · by_cases h2 : y2 = 1
    · simp [sat2cell, sat2spec, h1, h2]
    · simp [sat2cell, sat2spec, h1, h2]

/-- Witness for `sat2_matches_spec` at the spec's sample point
`y₁ = y₂ = 1/2`, `ρ₁ = ρ₂`. -/
theorem sat2_matches_spec_witness :
    ¬((1 : ℚ) / 2 = 1 ∧ (1 : ℚ) / 2 = 1) ∧
      sat2cell (1 / 2) (1 / 2) 1 1 = sat2spec (1 / 2) (1 / 2) 1 1 :=
  ⟨by norm_num, sat2_matches_spec (1 / 2) (1 / 2) 1 1 (by norm_num)⟩

/-- C3: `_multi_phase_saturation_evaluation` reads the vector `y` from the
SATURATION variables instead of the molar-fraction variables.  On a cell
with molar fractions `y = (1, 0, 0)` (phase 1 fully saturated in the
claim's sense) but stored saturation values `(1/2, 3/10, 1/5)` and equal
densities, the function classifies the cell as multiphase, solves the
linear system built from the stale saturation values, and returns
`(1/2, 3/10, 1/5)` — not `(1, 0, 0)` as the claim (and the function's own
doc string, and the analogous two-phase routine, which reads
`fraction_name`) require; the faithful-to-the-docstring variant
`specMultiSat3` does return `(1, 0, 0)`. -/
theorem multiSat_uses_saturation_values :
    multiSat3 ⟨1, 0, 0⟩ ⟨1 / 2, 3 / 10, 1 / 5⟩ ⟨1, 1, 1⟩
        = ⟨1 / 2, 3 / 10, 1 / 5⟩ ∧
      (multiSat3 ⟨1, 0, 0⟩ ⟨1 / 2, 3 / 10, 1 / 5⟩ ⟨1, 1, 1⟩).1 ≠ 1 ∧
      specMultiSat3 ⟨1, 0, 0⟩ ⟨1 / 2, 3 / 10, 1 / 5⟩ ⟨1, 1, 1⟩ = ⟨1, 0, 0⟩ := by
  have hcode : multiSat3 ⟨1, 0, 0⟩ ⟨1 / 2, 3 / 10, 1 / 5⟩ ⟨1, 1, 1⟩
      = ⟨1 / 2, 3 / 10, 1 / 5⟩ := by
    norm_num [multiSat3]
  have hspec : specMultiSat3 ⟨1, 0, 0⟩ ⟨1 / 2, 3 / 10, 1 / 5⟩ ⟨1, 1, 1⟩
      = ⟨1, 0, 0⟩ := by
    norm_num [specMultiSat3]
  refine ⟨hcode, ?_, hspec⟩
  rw [hcode]
  norm_num

/-! ## `initialize` assertions -/

/-- C8, counterexample: `initialize` with one component and a SINGLE phase
succeeds and builds both subsystems — the source only asserts a non-empty
phase list (composition.py line 385), not two phases, so "fewer than 2
phases" does not fail. -/
theorem initFlash_single_phase_ok :
    initFlash ["H2O"] ["L"]
        = Except.ok (pTsub ["H2O"] ["L"], phsub ["H2O"] ["L"]) ∧
      List.length (["L"] : List String) < 2 := by
  exact ⟨rfl, by norm_num⟩

/-- C8, amended: `initialize` fails with an `AssertionError`-class error for
zero components, and for zero phases; with at least one component and at
least one phase (in particular also with a single phase) it succeeds and
builds the `pT_subsystem` and `ph_subsystem` dictionaries. -/
theorem initFlash_assertions (cs ps : List String) :
    (cs = [] → initFlash cs ps = Except.error "AssertionError") ∧
    (cs ≠ [] → ps = [] → initFlash cs ps = Except.error "AssertionError") ∧
    (cs ≠ [] → ps ≠ [] →
      initFlash cs ps = Except.ok (pTsub cs ps, phsub cs ps)) := by
  refine ⟨?_, ?_, ?_⟩
  · rintro rfl
    rfl
  · intro h1 h2
    have hlen : ¬(cs.length < 1) := by
      simp only [Nat.lt_one_iff, List.length_eq_zero]
      exact h1
    subst h2
    unfold initFlash
    rw [if_neg hlen, if_pos rfl]
  · intro h1 h2
    have hlen : ¬(cs.length < 1) := by
      simp only [Nat.lt_one_iff, List.length_eq_zero]
      exact h1
    unfold initFlash
    rw [if_neg hlen, if_neg h2]

/-- Witness for `initFlash_assertions` on a one-component two-phase model. -/
theorem initFlash_assertions_witness :
    (["H2O"] : List String) ≠ [] ∧ (["L", "G"] : List String) ≠ [] ∧
      initFlash ["H2O"] ["L", "G"]
        = Except.ok (pTsub ["H2O"] ["L", "G"], phsub ["H2O"] ["L", "G"]) :=
  ⟨by simp, by simp,
    (initFlash_assertions ["H2O"] ["L", "G"]).2.2 (by simp) (by simp)⟩

/-! ## `compute`: dead fugacity extension, constant transport properties -/

theorem zipWith_map_self {α β γ : Type} (l : List α) (f : α → β)
    (g : α → β → γ) :
    List.zipWith g l (l.map f) = l.map fun x => g x (f x) := by
  induction l with
  | nil => rfl
  | cons a t ih => simp [ih]

/-- C9: `PengRobinsonEoS.compute` never applies the Ben-Gharbia fugacity
extension: the guard at eos.py line 498 is the literal `False`, so the
branch is unreachable.  The returned fugacity coefficient of each component
is `_phi_i(Z, A_i, A, B_i, B, a)` unconditionally, and the result is the
same on cells flagged `is_extended` and those not flagged. -/
theorem compute_no_extension (gl asm e1 e2 : Bool) (e s ps es p T : ℝ)
    (X : List ℝ) (a dTa b : ℝ) (cdata : List (ℝ × ℝ)) (hid : ℝ)
    (rhom : ℝ → List ℝ → ℝ) :
    (compute gl asm e1 e s ps es p T X a dTa b cdata hid rhom).phis
        = (compute gl asm e2 e s ps es p T X a dTa b cdata hid rhom).phis ∧
      (compute gl asm e1 e s ps es p T X a dTa b cdata hid rhom).phis
        = cdata.map (fun ci =>
            phi_i (Z_scalar e s gl asm (ndA a p T) (ndB b p T)).1 ci.2
              (ndA a p T) (ndB ci.1 p T) (ndB b p T) a) := by
  have key : ∀ e3 : Bool,
      (compute gl asm e3 e s ps es p T X a dTa b cdata hid rhom).phis
        = cdata.map (fun ci =>
            phi_i (Z_scalar e s gl asm (ndA a p T) (ndB b p T)).1 ci.2
              (ndA a p T) (ndB ci.1 p T) (ndB b p T) a) := by
    intro e3
    simp only [compute, Bool.false_and, Bool.false_eq_true, if_false]
    rw [zipWith_map_self]
  exact ⟨(key e1).trans (key e2).symm, key e1⟩

/-- C10: the thermal conductivity and dynamic viscosity returned in the
`PhaseProperties_cubic` produced by `compute` are the constant `1.0`
(`_kappa` and `_mu` are TODO stubs), independent of pressure, temperature,
composition and the computed compressibility factor. -/
theorem compute_kappa_mu_constant (gl asm ext : Bool) (e s ps es p T : ℝ)
    (X : List ℝ) (a dTa b : ℝ) (cdata : List (ℝ × ℝ)) (hid : ℝ)
    (rhom : ℝ → List ℝ → ℝ) :
    (compute gl asm ext e s ps es p T X a dTa b cdata hid rhom).kappa = 1 ∧
      (compute gl asm ext e s ps es p T X a dTa b cdata hid rhom).mu = 1 := by
  constructor <;> simp [compute, kappaEoS, muEoS]

end PorepyVerify
